import Mathlib

/-
Verification development for the relationship eager-loading planner
specified for this repository.  The repository's Python sources are
tutorial scripts that only exercise an ORM library (`04_relationships_tips.py`,
`03_select_tips.py`, `05_other_tips.py`, schema in `models.py`); the planner
itself is specified but not implemented under `src/`, so the definitions
below are modelled from the specification and instantiated with the schema
declared in `models.py` (Student, Email, Clazz, StudentClazz, ...).
-/

namespace EagerLoad

/-- Structural decidable equality for `Except`, used to compare plan-build
outcomes. -/
instance instDecEqExcept {ε α : Type} [DecidableEq ε] [DecidableEq α] :
    DecidableEq (Except ε α) := fun a b =>
  match a, b with
  | .error e1, .error e2 =>
    match decEq e1 e2 with
    | isTrue h => isTrue (by rw [h])
    | isFalse h => isFalse (by intro hh; injection hh; exact h ‹_›)
  | .error _, .ok _ => isFalse (by intro h; exact Except.noConfusion h)
  | .ok _, .error _ => isFalse (by intro h; exact Except.noConfusion h)
  | .ok a1, .ok a2 =>
    match decEq a1 a2 with
    | isTrue h => isTrue (by rw [h])
    | isFalse h => isFalse (by intro hh; injection hh; exact h ‹_›)

/-- Cardinality of a relationship: at most one related row, or many. -/
inductive Cardinality where
  | one
  | many
deriving DecidableEq

/-- Requested loading strategy of a `LoadDirective`. -/
inductive Strategy where
  | joinFetch
  | batchedFetch
  | forbidLazy
deriving DecidableEq

/-- Result of the load-strategy selector. -/
inductive Classification where
  | JoinFetch
  | BatchedFetch
  | Forbidden
deriving DecidableEq

/-- Registry-time and plan-build-time errors of the planner core. -/
inductive PlanError where
  | UnknownEntity
  | UnknownRelationship (entityType relName : String)
  | DanglingRelationship
  | DuplicateEntity
  | AmbiguousCardinality
  | ConflictingDirectives
  | CompositeKeyUnsupportedForBatch
deriving DecidableEq

/-- Access-time errors raised by the access guard. -/
inductive AccessError where
  | LazyAccessViolation (entityType fieldName : String)
  | DetachedAccessError
deriving DecidableEq

/-- Execution-time failures reported by the execution-engine collaborator. -/
inductive ExecError where
  | StaleWrite
  | LockTimeout
deriving DecidableEq

/-- Errors of the row-accessor on an executed result. -/
inductive ResultError where
  | NoResultFound
  | MultipleResultsFound
deriving DecidableEq

/-- Access-guard mode: the default no-implicit-fetch policy, or caller
opted-in implicit lazy fetching. -/
inductive GuardMode where
  | noImplicitFetch
  | implicitLazy
deriving DecidableEq

/-- Modelled from the spec: `RelationshipSpec` of §3 — owning entity type,
target entity type, cardinality, nullability of the foreign key, optional
inverse relationship name (absent means one-directional), and the
composite-key flag of §4.2.  The repository declares these only as ORM
`relationship()` fields in `models.py`. -/
structure RelationshipSpec where
  owner : String
  target : String
  cardinality : Cardinality
  fkNullable : Bool
  inverse : Option String
  compositeKey : Bool
deriving DecidableEq

/-- Modelled from the spec: `EntityType` of §3 — name, ordered fields,
primary-key field set, named relationship declarations. -/
structure EntityType where
  name : String
  fields : List String
  pk : List String
  relationships : List (String × RelationshipSpec)
deriving DecidableEq

/-- Modelled from the spec: the Schema Registry of §4.1, missing from
`src/`; a process-wide set of entity types, read-only once sealed. -/
structure Registry where
  entities : List EntityType
  isSealed : Bool
deriving DecidableEq

/-- Modelled from the spec: `LoadDirective` of §3 — a root-relative
relationship path plus a requested strategy; `allowMultiplication` is the
caller flag of §4.3 accepting row multiplication for one-to-many
join-fetch. -/
structure LoadDirective where
  path : List String
  strategy : Strategy
  allowMultiplication : Bool
deriving DecidableEq

/-- Root-query filter: an optional primary-key whitelist and an optional
row limit (the tutorial's `where`/`limit` clauses). -/
structure RootFilter where
  keys : Option (List Nat)
  lim : Option Nat
deriving DecidableEq

/-- One executable statement of a `QueryPlan`: the root query (augmented
with its join-fetch joins) or a follow-up batched-fetch query. -/
inductive Statement where
  | root (rootType : String) (filter : RootFilter)
      (joins : List (List String × RelationshipSpec))
  | batch (path : List String) (spec : RelationshipSpec)
deriving DecidableEq

/-- Modelled from the spec: `QueryPlan` of §3 — ordered statements, root
query first; `guards` lists the paths classified `Forbidden`, which install
access guards instead of fetches. -/
structure QueryPlan where
  statements : List Statement
  guards : List (List String)
deriving DecidableEq

/-- Per-relationship field value once populated: a single related row key
(or absent) for cardinality `one`, a sequence of keys for `many`. -/
inductive FieldValue where
  | one (v : Option Nat)
  | many (vs : List Nat)
deriving DecidableEq

/-- Tagged field state of §9: not requested, access-guarded, or populated. -/
inductive FieldState where
  | NotRequested
  | Forbidden
  | Populated (v : FieldValue)
deriving DecidableEq

/-- A materialized entity of a `ResultGraph`: its type name, primary-key
value and the state of each relationship field. -/
structure Entity where
  entityType : String
  key : Nat
  fields : List (String × FieldState)
deriving DecidableEq

/-- Modelled from the spec: `ResultGraph` of §3 — root entities with
relationship fields populated per directive. -/
structure ResultGraph where
  roots : List Entity
deriving DecidableEq

/-- The external database visible through the execution-engine
collaborator: rows (primary keys) per entity type, and for each
`(owner entity, relationship name)` the foreign-key association pairs
`(ownerKey, targetKey)`. -/
structure Database where
  rows : String → List Nat
  assoc : String → String → List (Nat × Nat)

/-- An executed select result, as consumed by the row accessors of
`03_select_tips.py`. -/
structure ExecResult where
  rowsOut : List (List Nat)
deriving DecidableEq

/-- A directive after classification: its path, the relationship being
loaded, and the selected classification. -/
structure ClassifiedDirective where
  path : List String
  spec : RelationshipSpec
  classification : Classification
deriving DecidableEq

/-! ### Schema Registry operations (§4.1) -/

/-- Modelled from the spec: `register` of §4.1 — fails with
`DuplicateEntity` if the name is already registered. -/
def register (reg : Registry) (et : EntityType) : Except PlanError Registry :=
  if reg.entities.any (fun x => x.name == et.name) then .error .DuplicateEntity
  else .ok ⟨reg.entities ++ [et], reg.isSealed⟩

/-- Register a list of entity types in order. -/
def registerMany (reg : Registry) : List EntityType → Except PlanError Registry
  | [] => .ok reg
  | et :: rest =>
    match register reg et with
    | .error e => .error e
    | .ok r2 => registerMany r2 rest

/-- Modelled from the spec: `seal` of §4.1 — fails with
`DanglingRelationship` if some relationship target is not registered;
freezes the registry. -/
def sealRegistry (reg : Registry) : Except PlanError Registry :=
  if reg.entities.all
      (fun et => et.relationships.all
        (fun pr => reg.entities.any (fun x => x.name == pr.2.target)))
  then .ok ⟨reg.entities, true⟩
  else .error .DanglingRelationship

/-- Find an entity type by name. -/
def findEntity (reg : Registry) (ty : String) : Option EntityType :=
  reg.entities.find? (fun et => et.name == ty)

/-- Modelled from the spec: `lookup` of §4.1 — fails with `UnknownEntity`. -/
def lookupEntity (reg : Registry) (ty : String) : Except PlanError EntityType :=
  match findEntity reg ty with
  | some et => .ok et
  | none => .error .UnknownEntity

/-! ### Relationship Resolver (§4.2) -/

/-- Modelled from the spec: `resolve` of §4.2, missing from `src/` — walks
the path one segment at a time, failing with `UnknownRelationship` on the
first unresolvable segment. -/
def resolve (reg : Registry) (rootType : String) :
    List String → Except PlanError (List RelationshipSpec)
  | [] => .ok []
  | name :: rest =>
    match lookupEntity reg rootType with
    | .error e => .error e
    | .ok et =>
      match et.relationships.lookup name with
      | none => .error (.UnknownRelationship rootType name)
      | some spec =>
        match resolve reg spec.target rest with
        | .error e => .error e
        | .ok tail => .ok (spec :: tail)

/-! ### Load Strategy Selector (§4.3) -/

/-- Path `p` lies on or under path `q`'s subtree: `p` is an initial
segment of `q`. -/
def pathUnder : List String → List String → Bool
  | [], _ => true
  | _, [] => false
  | a :: p, b :: q => a == b && pathUnder p q

/-- Conflicting directives on overlapping paths (§4.3): a `forbid-lazy`
directive whose path is an initial segment of some fetch directive's path. -/
def hasConflict (ds : List LoadDirective) : Bool :=
  ds.any fun d =>
    d.strategy == .forbidLazy &&
      ds.any fun d2 => d2.strategy != .forbidLazy && pathUnder d.path d2.path

/-- Modelled from the spec: `classify` of §4.3, missing from `src/` —
`JoinFetch` is valid when cardinality is `one`, or `many` with the
caller's `allowMultiplication` flag, otherwise `AmbiguousCardinality`;
`BatchedFetch` is valid for any cardinality; `forbid-lazy` installs an
access guard. -/
def classify (spec : RelationshipSpec) (requested : Strategy)
    (allowMultiplication : Bool) : Except PlanError Classification :=
  match requested with
  | .joinFetch =>
    if spec.cardinality = Cardinality.one then .ok .JoinFetch
    else if allowMultiplication then .ok .JoinFetch
    else .error .AmbiguousCardinality
  | .batchedFetch => .ok .BatchedFetch
  | .forbidLazy => .ok .Forbidden

/-- Resolve every directive of a plan request against the registry. -/
def resolveAll (reg : Registry) (rootType : String) :
    List LoadDirective → Except PlanError (List (LoadDirective × List RelationshipSpec))
  | [] => .ok []
  | d :: rest =>
    match resolve reg rootType d.path with
    | .error e => .error e
    | .ok specs =>
      match resolveAll reg rootType rest with
      | .error e => .error e
      | .ok tail => .ok ((d, specs) :: tail)

/-- Classify every resolved directive (the relationship loaded by a
directive is the last spec of its resolved chain). -/
def classifyAll (rootType : String) :
    List (LoadDirective × List RelationshipSpec) → Except PlanError (List ClassifiedDirective)
  | [] => .ok []
  | (d, specs) :: rest =>
    match specs.getLast? with
    | none => .error (.UnknownRelationship rootType "")
    | some s =>
      match classify s d.strategy d.allowMultiplication with
      | .error e => .error e
      | .ok c =>
        match classifyAll rootType rest with
        | .error e => .error e
        | .ok tail => .ok (⟨d.path, s, c⟩ :: tail)

/-! ### Query Plan Assembler (§4.4) -/

/-- Insert a classified directive into a list kept ordered by path depth. -/
def insertByDepth (c : ClassifiedDirective) :
    List ClassifiedDirective → List ClassifiedDirective
  | [] => [c]
  | x :: xs =>
    if c.path.length < x.path.length then c :: x :: xs
    else x :: insertByDepth c xs

/-- Order batched-fetch directives breadth-first by path depth (§4.4). -/
def sortByDepth : List ClassifiedDirective → List ClassifiedDirective
  | [] => []
  | x :: xs => insertByDepth x (sortByDepth xs)

/-- Modelled from the spec: `assemble` of §4.4, missing from `src/` —
join-fetch directives merge into the root query, batched-fetch directives
become follow-up statements ordered breadth-first by depth, forbidden
directives install guards. -/
def assemble (rootType : String) (filter : RootFilter)
    (cds : List ClassifiedDirective) : QueryPlan :=
  let joins := (cds.filter (fun c => c.classification == Classification.JoinFetch)).map
    (fun c => (c.path, c.spec))
  let batches := sortByDepth
    (cds.filter (fun c => c.classification == Classification.BatchedFetch))
  let guards := (cds.filter (fun c => c.classification == Classification.Forbidden)).map
    (fun c => c.path)
  ⟨Statement.root rootType filter joins :: batches.map (fun c => Statement.batch c.path c.spec),
   guards⟩

/-- Modelled from the spec: the caller-facing `plan` of §6, missing from
`src/` — validates the root type, resolves every directive path, rejects
conflicting directives at classification time, classifies each directive,
rejects composite-key batched fetches on a backend lacking composite
IN-clause support (`compositeIn = false`), and assembles the plan.  All
failures occur before any statement executes. -/
def plan (reg : Registry) (rootType : String) (filter : RootFilter)
    (ds : List LoadDirective) (compositeIn : Bool) : Except PlanError QueryPlan :=
  match lookupEntity reg rootType with
  | .error e => .error e
  | .ok _ =>
    match resolveAll reg rootType ds with
    | .error e => .error e
    | .ok resolved =>
      if hasConflict ds then .error .ConflictingDirectives
      else
        match classifyAll rootType resolved with
        | .error e => .error e
        | .ok classified =>
          if classified.any (fun c =>
              !compositeIn &&
              (c.classification == Classification.BatchedFetch && c.spec.compositeKey))
          then .error .CompositeKeyUnsupportedForBatch
          else .ok (assemble rootType filter classified)

/-! ### Plan execution -/

/-- Root rows selected by the root query's filter. -/
def rootKeys (db : Database) (ty : String) (f : RootFilter) : List Nat :=
  let base := db.rows ty
  let narrowed := match f.keys with
    | none => base
    | some ks => base.filter (fun x => decide (x ∈ ks))
  match f.lim with
  | none => narrowed
  | some n => narrowed.take n

/-- Target keys associated to an owner key by the foreign-key pairs of a
relationship. -/
def assocTargets (db : Database) (ty rel : String) (k : Nat) : List Nat :=
  ((db.assoc ty rel).filter (fun p => decide (p.1 = k))).map (fun p => p.2)

/-- Update (or insert) a field in a field-state list. -/
def updField (l : List (String × FieldState)) (f : String) (s : FieldState) :
    List (String × FieldState) :=
  match l with
  | [] => [(f, s)]
  | p :: rest => if p.1 == f then (f, s) :: rest else p :: updField rest f s

/-- Set a relationship field's state on an entity. -/
def setField (e : Entity) (f : String) (s : FieldState) : Entity :=
  { e with fields := updField e.fields f s }

/-- State of a relationship field; fields never touched are `NotRequested`. -/
def Entity.fieldState (e : Entity) (f : String) : FieldState :=
  (e.fields.lookup f).getD .NotRequested

/-- A materialized root entity before any eager load: every declared
relationship is `NotRequested`. -/
def initEntity (reg : Registry) (ty : String) (k : Nat) : Entity :=
  match findEntity reg ty with
  | some et => ⟨ty, k, et.relationships.map (fun p => (p.1, FieldState.NotRequested))⟩
  | none => ⟨ty, k, []⟩

/-- Demultiplexed value of a join-fetched relationship for one root row:
the joined target rows grouped on the root key; first (or no) match for
cardinality `one`, the distinct combinations for `many` (§4.4). -/
def joinFieldValue (spec : RelationshipSpec) (targets : List Nat) : FieldValue :=
  match spec.cardinality with
  | .one => .one targets.head?
  | .many => .many targets.dedup

/-- Value of a batched-fetched relationship for one root row. -/
def batchFieldValue (spec : RelationshipSpec) (targets : List Nat) : FieldValue :=
  match spec.cardinality with
  | .one => .one targets.head?
  | .many => .many targets

/-- Populate a join-fetched relationship on a root entity (the plans under
verification materialize root-level, depth-one paths). -/
def populateJoin (db : Database) (rootTy : String) (path : List String)
    (spec : RelationshipSpec) (e : Entity) : Entity :=
  match path with
  | [r] =>
    setField e r (.Populated (joinFieldValue spec (assocTargets db rootTy r e.key)))
  | _ => e

/-- Modelled from the spec: batched-fetch execution of §4.3 — collect the
distinct primary keys of the owning rows, issue one query filtering the
target table by membership in that key set, and associate each fetched row
back to its owner via the foreign key. -/
def populateBatch (db : Database) (rootTy : String) (ks : List Nat)
    (path : List String) (spec : RelationshipSpec) (e : Entity) : Entity :=
  match path with
  | [r] =>
    let keyset := ks.dedup
    let fetched := (db.assoc rootTy r).filter (fun p => decide (p.1 ∈ keyset))
    let targets := (fetched.filter (fun p => decide (p.1 = e.key))).map (fun p => p.2)
    setField e r (.Populated (batchFieldValue spec targets))
  | _ => e

/-- Install the access-guarded marker on every forbidden field. -/
def applyGuards (guards : List (List String)) (e : Entity) : Entity :=
  guards.foldl
    (fun acc g =>
      match g with
      | [r] => setField acc r .Forbidden
      | _ => acc)
    e

/-- Modelled from the spec: `execute(plan) -> ResultGraph` of §6, missing
from `src/` — runs the root statement (with its merged joins), then each
batched-fetch statement keyed by the root rows' primary keys, then wraps
the results with the access guards. -/
def executePlan (reg : Registry) (db : Database) (qp : QueryPlan) : ResultGraph :=
  match qp.statements with
  | Statement.root ty f joins :: rest =>
    let ks := rootKeys db ty f
    let base := ks.map (initEntity reg ty)
    let joined := base.map
      (fun e => joins.foldl (fun acc pr => populateJoin db ty pr.1 pr.2 acc) e)
    let batched := rest.foldl
      (fun es st =>
        match st with
        | Statement.batch p spec => es.map (populateBatch db ty ks p spec)
        | _ => es)
      joined
    ⟨batched.map (applyGuards qp.guards)⟩
  | _ => ⟨[]⟩

/-! ### Access Guard (§4.5) -/

/-- The single-row value an opted-in implicit lazy fetch would load. -/
def implicitFieldValue (reg : Registry) (db : Database) (e : Entity)
    (f : String) : Option FieldValue :=
  match findEntity reg e.entityType with
  | none => none
  | some et =>
    match et.relationships.lookup f with
    | none => none
    | some spec =>
      let ts := assocTargets db e.entityType f e.key
      some (match spec.cardinality with
        | .one => .one ts.head?
        | .many => .many ts)

/-- A field access that is not already populated would have to fetch. -/
def requiresFetch (e : Entity) (f : String) : Bool :=
  match e.fieldState f with
  | .Populated _ => false
  | _ => true

/-- Modelled from the spec: the Access Guard of §4.5, missing from `src/`
— populated fields are returned; any non-populated access on a detached
entity fails with `DetachedAccessError` regardless of mode; a `Forbidden`
field or, under the no-implicit-fetch policy, a not-requested field fails
with `LazyAccessViolation(entityType, fieldName)`; with opted-in implicit
lazy fetch a not-requested field is fetched once and cached on the
returned entity. -/
def accessField (mode : GuardMode) (detached : Bool) (reg : Registry)
    (db : Database) (e : Entity) (f : String) :
    Except AccessError (FieldValue × Entity) :=
  match e.fieldState f with
  | .Populated v => .ok (v, e)
  | .Forbidden =>
    if detached then .error .DetachedAccessError
    else .error (.LazyAccessViolation e.entityType f)
  | .NotRequested =>
    if detached then .error .DetachedAccessError
    else
      match mode with
      | .noImplicitFetch => .error (.LazyAccessViolation e.entityType f)
      | .implicitLazy =>
        match implicitFieldValue reg db e f with
        | some v => .ok (v, setField e f (.Populated v))
        | none => .error (.LazyAccessViolation e.entityType f)

/-! ### Relationship mutation (§9, `back_populates`) -/

/-- Append a key to a `many`-valued field state. -/
def appendManyKey (s : FieldState) (k : Nat) : FieldState :=
  match s with
  | .Populated (.many l) => .Populated (.many (l ++ [k]))
  | _ => .Populated (.many [k])

/-- Modelled from the spec: assigning a to-one relationship field (§9's
post-mutation hook) — sets the owner's field; only when the relationship
declares an inverse name does the hook also update the target's inverse
collection.  The repository only demonstrates this through the ORM's
`back_populates` in `test_basic_relationship`. -/
def assignRelated (spec : RelationshipSpec) (relName : String)
    (owner target : Entity) : Entity × Entity :=
  let owner2 := setField owner relName (.Populated (.one (some target.key)))
  match spec.inverse with
  | none => (owner2, target)
  | some inv => (owner2, setField target inv (appendManyKey (target.fieldState inv) owner.key))

/-- Modelled from the spec: appending to a to-many relationship field —
adds the target's key to the owner's collection; only with a declared
inverse does the hook also set the target's inverse to-one field. -/
def appendRelated (spec : RelationshipSpec) (relName : String)
    (owner target : Entity) : Entity × Entity :=
  let owner2 := setField owner relName (appendManyKey (owner.fieldState relName) target.key)
  match spec.inverse with
  | none => (owner2, target)
  | some inv => (owner2, setField target inv (.Populated (.one (some owner.key))))

/-! ### Statement execution against the engine collaborator (§5, §7) -/

/-- Modelled from the spec: sequential dispatch of a plan's statements to
the execution-engine collaborator (§5/§7, missing from `src/`) — each
statement is submitted exactly once, in order; a collaborator failure
stops the run and is surfaced unchanged together with the number of
statements that completed.  Returns the trace of submitted statements and
the outcome. -/
def runStatements (engine : Statement → Except ExecError Unit) :
    List Statement → List Statement × Except (ExecError × Nat) Nat
  | [] => ([], .ok 0)
  | s :: rest =>
    match engine s with
    | .error e => ([s], .error (e, 0))
    | .ok _ =>
      let r := runStatements engine rest
      (s :: r.1,
       match r.2 with
       | .ok n => .ok (n + 1)
       | .error (e, k) => .error (e, k + 1))

/-- Statements actually submitted to the engine for a plan-build outcome:
a failed `plan()` call submits none. -/
def executedStatements (engine : Statement → Except ExecError Unit) :
    Except PlanError QueryPlan → List Statement
  | .error _ => []
  | .ok qp => (runStatements engine qp.statements).1

/-! ### Row accessor of an executed select (`03_select_tips.py`) -/

/-- Modelled from the spec: the repository only demonstrates the ORM
library's `Result.one()` accessor (`test_one` and its docstring); the
accessor itself is not under `src/`.  It returns the single row exactly
when one row exists, `NoResultFound` on an empty result and
`MultipleResultsFound` on several rows; the result set is passed back
unchanged alongside. -/
def ExecResult.one (r : ExecResult) : Except ResultError (List Nat) × ExecResult :=
  (match r.rowsOut with
   | [] => .error .NoResultFound
   | [x] => .ok x
   | _ :: _ :: _ => .error .MultipleResultsFound,
   r)

/-! ### The school schema of `models.py` -/

/-- `Student.emails`: one-to-many to `Email` via `emails.student_id`,
bidirectional through `back_populates="student"`. -/
def emailsSpec : RelationshipSpec :=
  ⟨"Student", "Email", .many, false, some "student", false⟩

/-- `Student.clazz`: one-to-one to `StudentClazz` via
`student_clazz.student_id`; no `back_populates` declared on this side. -/
def clazzSpec : RelationshipSpec :=
  ⟨"Student", "StudentClazz", .one, false, none, false⟩

/-- `Email.student`: many-to-one to `Student`; declared without
`back_populates` (one-directional, `models.py` line 66). -/
def emailStudentSpec : RelationshipSpec :=
  ⟨"Email", "Student", .one, false, none, false⟩

/-- `StudentClazz.student`: to-one with `back_populates="clazz"`. -/
def scStudentSpec : RelationshipSpec :=
  ⟨"StudentClazz", "Student", .one, false, some "clazz", false⟩

/-- `StudentClazz.clazz`: to-one to `Clazz`, one-directional. -/
def scClazzSpec : RelationshipSpec :=
  ⟨"StudentClazz", "Clazz", .one, false, none, false⟩

/-- `students` table. -/
def studentEntity : EntityType :=
  ⟨"Student", ["id", "name", "gender", "address", "score", "updated_at"], ["id"],
   [("emails", emailsSpec), ("clazz", clazzSpec)]⟩

/-- `emails` table (composite primary key `(email, student_id)`). -/
def emailEntity : EntityType :=
  ⟨"Email", ["email", "student_id"], ["email", "student_id"],
   [("student", emailStudentSpec)]⟩

/-- `teachers` table. -/
def teacherEntity : EntityType := ⟨"Teacher", ["id", "name"], ["id"], []⟩

/-- `classes` table. -/
def clazzEntity : EntityType := ⟨"Clazz", ["id", "name"], ["id"], []⟩

/-- `clubs` table. -/
def clubEntity : EntityType := ⟨"Club", ["id", "name", "teacher_id"], ["id"], []⟩

/-- `student_clazz` table. -/
def studentClazzEntity : EntityType :=
  ⟨"StudentClazz", ["student_id", "class_id"], ["student_id"],
   [("student", scStudentSpec), ("clazz", scClazzSpec)]⟩

/-- `teacher_clazz` table (composite primary key). -/
def teacherClazzEntity : EntityType :=
  ⟨"TeacherClazz", ["teacher_id", "class_id"], ["teacher_id", "class_id"], []⟩

/-- `student_club` table (composite primary key). -/
def studentClubEntity : EntityType :=
  ⟨"StudentClub", ["student_id", "club_id"], ["student_id", "club_id"], []⟩

/-- All entity types declared by `models.py`. -/
def allSchoolEntities : List EntityType :=
  [studentEntity, emailEntity, teacherEntity, clazzEntity, clubEntity,
   studentClazzEntity, teacherClazzEntity, studentClubEntity]

/-- The sealed process-wide registry of the school schema. -/
def schoolRegistry : Registry := ⟨allSchoolEntities, true⟩

/-- Building the registry by registering each entity and sealing. -/
def buildSchoolRegistry : Except PlanError Registry :=
  match registerMany ⟨[], false⟩ allSchoolEntities with
  | .error e => .error e
  | .ok r => sealRegistry r

/-! ### Concrete scenario data -/

/-- Scenario B plan: root query on `Student` with the `clazz` join merged. -/
def planB (f : RootFilter) : QueryPlan :=
  ⟨[Statement.root "Student" f [(["clazz"], clazzSpec)]], []⟩

/-- Scenario A plan: the joined root query first, then the batched-fetch
statement for `emails`. -/
def planA (f : RootFilter) : QueryPlan :=
  ⟨[Statement.root "Student" f [(["clazz"], clazzSpec)],
    Statement.batch ["emails"] emailsSpec], []⟩

/-- An unconstrained root filter. -/
def wF : RootFilter := ⟨none, none⟩

/-- A small concrete database over the school schema: three students,
student 1 with two emails, students 1 and 2 assigned to a class row. -/
def wDb : Database :=
  ⟨fun t => if t == "Student" then [1, 2, 3] else if t == "Email" then [10] else [],
   fun ty r =>
     if ty == "Student" && r == "emails" then [(1, 10), (1, 11)]
     else if ty == "Student" && r == "clazz" then [(1, 7), (2, 8)]
     else []⟩

/-- Student 1 as materialized by the Scenario B plan over `wDb`. -/
def wEntB : Entity :=
  ⟨"Student", 1, [("emails", .NotRequested), ("clazz", .Populated (.one (some 7)))]⟩

/-- Student 1 as materialized by the Scenario A plan over `wDb`. -/
def wEntA : Entity :=
  ⟨"Student", 1, [("emails", .Populated (.many [10, 11])),
                  ("clazz", .Populated (.one (some 7)))]⟩

/-- A freshly materialized email row whose `student` field was never
requested. -/
def wEmailEnt : Entity := ⟨"Email", 10, [("student", .NotRequested)]⟩

/-- A student row with an empty loaded `emails` collection. -/
def wStudentEnt : Entity :=
  ⟨"Student", 1, [("emails", .Populated (.many [])), ("clazz", .NotRequested)]⟩

/-- An execution-engine collaborator that reports an optimistic-conflict
failure on every statement. -/
def wEngineFail : Statement → Except ExecError Unit := fun _ => .error .StaleWrite

/-- A sample statement to dispatch. -/
def wStmt : Statement := Statement.batch ["emails"] emailsSpec

/-- Scenario D directive set: `forbid-lazy` on `clazz` together with
`join-fetch` on the deeper path `clazz.clazz`. -/
def scenarioDDirectives : List LoadDirective :=
  [⟨["clazz"], .forbidLazy, false⟩, ⟨["clazz", "clazz"], .joinFetch, false⟩]

/-! ### Helper lemmas -/

/-- The register-and-seal sequence builds exactly the sealed registry. -/
theorem buildSchoolRegistry_ok : buildSchoolRegistry = .ok schoolRegistry := by decide

/-- Pointwise equal functions map lists equally. -/
theorem listMapCongr {α β : Type} :
    ∀ (l : List α) (f g : α → β), (∀ a ∈ l, f a = g a) → l.map f = l.map g
  | [], _, _, _ => rfl
  | x :: xs, f, g, h => by
    simp only [List.map_cons]
    rw [h x (List.mem_cons_self x xs),
        listMapCongr xs f g (fun a ha => h a (List.mem_cons_of_mem x ha))]

/-- A path is under its own extensions. -/
theorem pathUnder_append : ∀ (p q : List String), pathUnder p (p ++ q) = true
  | [], _ => by simp [pathUnder]
  | a :: p, q => by simp [pathUnder, pathUnder_append p q]

/-- Materializing a root row keeps its primary key. -/
theorem initEntity_key (reg : Registry) (ty : String) (k : Nat) :
    (initEntity reg ty k).key = k := by
  unfold initEntity
  cases findEntity reg ty <;> rfl

/-- Installing no guards changes nothing. -/
theorem applyGuards_nil (e : Entity) : applyGuards [] e = e := rfl

/-- Filtering by a key already known to be in the batched key set is
redundant: the batched fetch sees every association pair of that owner. -/
theorem filter_keyset_eq (l : List (Nat × Nat)) (S : List Nat) (k : Nat)
    (hk : k ∈ S) :
    (l.filter (fun p => decide (p.1 ∈ S))).filter (fun p => decide (p.1 = k))
      = l.filter (fun p => decide (p.1 = k)) := by
  induction l with
  | nil => rfl
  | cons p t ih =>
    by_cases h : p.1 = k
    · simp [List.filter_cons, h, hk, ih]
    · by_cases h2 : p.1 ∈ S <;> simp [List.filter_cons, h, h2, ih]

/-- The rows a batched-fetch statement associates to an owner in the key
set are exactly the owner's foreign-key associations. -/
theorem batch_targets_eq (db : Database) (ty r : String) (ks : List Nat)
    (k : Nat) (hk : k ∈ ks) :
    (((db.assoc ty r).filter (fun p => decide (p.1 ∈ ks.dedup))).filter
        (fun p => decide (p.1 = k))).map (fun p => p.2)
      = assocTargets db ty r k := by
  rw [filter_keyset_eq _ _ _ (List.mem_dedup.mpr hk)]
  rfl

/-- On a to-one relationship, the batched fetch and the join fetch
populate a root row (whose key was collected) identically. -/
theorem batch_join_agree (db : Database) (ty r : String) (ks : List Nat)
    (spec : RelationshipSpec) (hone : spec.cardinality = .one) (e : Entity)
    (hk : e.key ∈ ks) :
    populateBatch db ty ks [r] spec e = populateJoin db ty [r] spec e := by
  have ht := batch_targets_eq db ty r ks e.key hk
  simp only [populateBatch, populateJoin, batchFieldValue, joinFieldValue, hone, ht]

/-- Looking up the just-written field returns the written state. -/
theorem lookup_updField (f : String) (s : FieldState) :
    ∀ l : List (String × FieldState), (updField l f s).lookup f = some s
  | [] => by simp [updField, List.lookup]
  | p :: rest => by
    by_cases h : p.1 = f
    · simp [updField, h, List.lookup]
    · have h2 : ¬(f = p.1) := fun hh => h hh.symm
      have h3 : (f == p.1) = false := beq_eq_false_iff_ne.mpr h2
      simp [updField, h, h3, List.lookup, lookup_updField f s rest]

/-- `setField` sets the named field's state. -/
theorem fieldState_setField (e : Entity) (f : String) (s : FieldState) :
    (setField e f s).fieldState f = s := by
  unfold setField Entity.fieldState
  simp [lookup_updField]

/-! ### Claims -/

/-- C6: for every entity detached from its originating query context, any
field access that would require a fetch fails with `DetachedAccessError`,
regardless of which access-guard mode was in effect for that field. -/
theorem claim_C6_detached_access (mode : GuardMode) (reg : Registry)
    (db : Database) (e : Entity) (fname : String)
    (h : requiresFetch e fname = true) :
    accessField mode true reg db e fname = .error .DetachedAccessError := by
  cases hfs : e.fieldState fname <;>
    simp [accessField, requiresFetch, hfs] at h ⊢

/-- Witness for C6: a detached email row whose `student` field was never
loaded fails with `DetachedAccessError` even under opted-in implicit lazy
fetching. -/
theorem claim_C6_witness :
    requiresFetch wEmailEnt "student" = true
    ∧ accessField .implicitLazy true schoolRegistry wDb wEmailEnt "student"
        = .error .DetachedAccessError :=
  ⟨rfl, claim_C6_detached_access .implicitLazy schoolRegistry wDb wEmailEnt "student" rfl⟩

/-- C7: mutating a relationship declared without an inverse name leaves
the other side untouched, while a relationship declared with an inverse
propagates the mutation to the other side's field; in the school schema
`Email.student` declares no inverse and `Student.emails` declares the
inverse `student`. -/
theorem claim_C7_one_directional :
    (∀ (spec : RelationshipSpec) (relName : String) (o t : Entity),
        spec.inverse = none →
        (assignRelated spec relName o t).2 = t
        ∧ (appendRelated spec relName o t).2 = t)
    ∧ (∀ (spec : RelationshipSpec) (relName inv : String) (o t : Entity),
        spec.inverse = some inv →
        ((appendRelated spec relName o t).2).fieldState inv
            = .Populated (.one (some o.key))
        ∧ ((assignRelated spec relName o t).2).fieldState inv
            = appendManyKey (t.fieldState inv) o.key)
    ∧ emailStudentSpec.inverse = none
    ∧ emailsSpec.inverse = some "student" := by
  refine ⟨?_, ?_, rfl, rfl⟩
  · intro spec relName o t hnone
    unfold assignRelated appendRelated
    rw [hnone]
    exact ⟨rfl, rfl⟩
  · intro spec relName inv o t hsome
    unfold assignRelated appendRelated
    rw [hsome]
    exact ⟨fieldState_setField _ _ _, fieldState_setField _ _ _⟩

/-- Witness for C7: assigning `email.student` (no inverse declared) does
not change the student's `emails` collection, while appending through
`Student.emails` (inverse `student`) sets the email's `student` field. -/
theorem claim_C7_witness :
    emailStudentSpec.inverse = none
    ∧ (assignRelated emailStudentSpec "student" wEmailEnt wStudentEnt).2 = wStudentEnt
    ∧ emailsSpec.inverse = some "student"
    ∧ ((appendRelated emailsSpec "emails" wStudentEnt wEmailEnt).2).fieldState "student"
        = .Populated (.one (some wStudentEnt.key)) :=
  ⟨rfl,
   (claim_C7_one_directional.1 emailStudentSpec "student" wEmailEnt wStudentEnt rfl).1,
   rfl,
   (claim_C7_one_directional.2.1 emailsSpec "emails" "student" wStudentEnt wEmailEnt rfl).1⟩

/-- C8: planning is deterministic — `classify` is a pure function of
`(spec, requestedStrategy, allowMultiplication)`, and `plan()` called
twice with identical arguments against the same registry value yields
structurally equal plans. -/
theorem claim_C8_plan_deterministic :
    (∀ (spec : RelationshipSpec) (req : Strategy) (am : Bool),
        classify spec req am = classify spec req am)
    ∧ ∀ (reg : Registry) (rootTy : String) (f : RootFilter)
        (ds : List LoadDirective) (ci : Bool),
        plan reg rootTy f ds ci = plan reg rootTy f ds ci :=
  ⟨fun _ _ _ => rfl, fun _ _ _ _ _ => rfl⟩

/-- C9: when the execution-engine collaborator reports a failure, the core
surfaces exactly that failure, and the trace of dispatched statements is
the plan's first `k + 1` statements in order — each submitted exactly
once, never retried. -/
theorem claim_C9_surface_unchanged (engine : Statement → Except ExecError Unit)
    (stmts : List Statement) (e : ExecError) (k : Nat)
    (h : (runStatements engine stmts).2 = .error (e, k)) :
    (runStatements engine stmts).1 = stmts.take (k + 1)
    ∧ ∃ hk : k < stmts.length, engine (stmts.get ⟨k, hk⟩) = .error e := by
  induction stmts generalizing k with
  | nil => simp [runStatements] at h
  | cons s rest ih =>
    cases he : engine s with
    | error e2 =>
      simp only [runStatements, he] at h ⊢
      obtain ⟨he2, hk0⟩ := Prod.mk.injEq .. ▸ (Except.error.injEq .. ▸ h)
      subst he2; subst hk0
      exact ⟨rfl, Nat.succ_pos _, by simpa using he⟩
    | ok u =>
      cases u
      simp only [runStatements, he] at h ⊢
      cases hr : (runStatements engine rest).2 with
      | ok n => rw [hr] at h; simp at h
      | error p =>
        obtain ⟨e2, k2⟩ := p
        rw [hr] at h
        simp only [Except.error.injEq, Prod.mk.injEq] at h
        obtain ⟨he2, hkk⟩ := h
        subst he2
        subst hkk
        obtain ⟨htr, hklt, hget⟩ := ih k2 hr
        refine ⟨?_, Nat.succ_lt_succ hklt, ?_⟩
        · simp [List.take_succ_cons, htr]
        · simpa using hget


/-- C10: the `one()` accessor returns the single row exactly when one row
exists, fails with `MultipleResultsFound` on several rows and with
`NoResultFound` on an empty result; the result set is returned unchanged
alongside the outcome. -/
theorem claim_C10_one_accessor (r : ExecResult) :
    (∀ x, r.rowsOut = [x] → r.one = (.ok x, r))
    ∧ (∀ x y rest, r.rowsOut = x :: y :: rest →
        r.one = (.error .MultipleResultsFound, r))
    ∧ (r.rowsOut = [] → r.one = (.error .NoResultFound, r)) := by
  obtain ⟨rows⟩ := r
  refine ⟨fun x h => ?_, fun x y rest h => ?_, fun h => ?_⟩ <;>
    (simp only [] at h; subst h; rfl)

/-- Witness for C10 at one-row, two-row and empty results. -/
theorem claim_C10_witness :
    (⟨[[1, 2]]⟩ : ExecResult).one = (.ok [1, 2], ⟨[[1, 2]]⟩)
    ∧ (⟨[[1], [2]]⟩ : ExecResult).one = (.error .MultipleResultsFound, ⟨[[1], [2]]⟩)
    ∧ (⟨[]⟩ : ExecResult).one = (.error .NoResultFound, ⟨[]⟩) :=
  ⟨(claim_C10_one_accessor ⟨[[1, 2]]⟩).1 [1, 2] rfl,
   (claim_C10_one_accessor ⟨[[1], [2]]⟩).2.1 [1] [2] [] rfl,
   (claim_C10_one_accessor ⟨[]⟩).2.2 rfl⟩

/-- The Scenario B plan materializes each selected student with `emails`
untouched and `clazz` populated from the join. -/
theorem scenarioB_entity (db : Database) (k : Nat) :
    applyGuards [] (populateJoin db "Student" ["clazz"] clazzSpec
      (initEntity schoolRegistry "Student" k))
    = ⟨"Student", k,
       [("emails", FieldState.NotRequested),
        ("clazz", FieldState.Populated
          (.one (assocTargets db "Student" "clazz" k).head?))]⟩ := rfl

/-- Root entities produced by executing the Scenario B plan. -/
theorem executePlan_planB_roots (db : Database) (f : RootFilter) :
    (executePlan schoolRegistry db (planB f)).roots
    = (rootKeys db "Student" f).map (fun k =>
        applyGuards [] (populateJoin db "Student" ["clazz"] clazzSpec
          (initEntity schoolRegistry "Student" k))) := by
  simp [executePlan, planB, List.map_map, Function.comp_def]

/-- The Scenario A plan materializes each selected student (whose key was
collected for the batch) with `emails` holding exactly its foreign-key
associations and `clazz` populated from the join. -/
theorem scenarioA_entity (db : Database) (ks : List Nat) (k : Nat)
    (hk : k ∈ ks) :
    applyGuards [] (populateBatch db "Student" ks ["emails"] emailsSpec
      (populateJoin db "Student" ["clazz"] clazzSpec
        (initEntity schoolRegistry "Student" k)))
    = ⟨"Student", k,
       [("emails", FieldState.Populated
          (.many (assocTargets db "Student" "emails" k))),
        ("clazz", FieldState.Populated
          (.one (assocTargets db "Student" "clazz" k).head?))]⟩ := by
  have ht := batch_targets_eq db "Student" "emails" ks k hk
  show (⟨"Student", k,
       [("emails", FieldState.Populated
          (.many ((((db.assoc "Student" "emails").filter
              (fun p => decide (p.1 ∈ ks.dedup))).filter
                (fun p => decide (p.1 = k))).map (fun p => p.2)))),
        ("clazz", FieldState.Populated
          (.one (assocTargets db "Student" "clazz" k).head?))]⟩ : Entity) = _
  rw [ht]

/-- Root entities produced by executing the Scenario A plan. -/
theorem executePlan_planA_roots (db : Database) (f : RootFilter) :
    (executePlan schoolRegistry db (planA f)).roots
    = (rootKeys db "Student" f).map (fun k =>
        applyGuards [] (populateBatch db "Student" (rootKeys db "Student" f)
          ["emails"] emailsSpec
          (populateJoin db "Student" ["clazz"] clazzSpec
            (initEntity schoolRegistry "Student" k)))) := by
  simp [executePlan, planA, List.map_map, Function.comp_def]

/-- C1: a plan whose only directive is join-fetch on `clazz` assembles to
the single joined root statement; in every result graph it produces, under
the no-implicit-fetch policy, accessing the uncovered, unpopulated
`emails` relationship fails with `LazyAccessViolation("Student","emails")`
instead of issuing a query, while accessing the join-fetched `clazz`
succeeds. -/
theorem claim_C1_lazy_access_violation (f : RootFilter) (db : Database) :
    plan schoolRegistry "Student" f [⟨["clazz"], Strategy.joinFetch, false⟩] true
      = .ok (planB f)
    ∧ ∀ e ∈ (executePlan schoolRegistry db (planB f)).roots,
        accessField .noImplicitFetch false schoolRegistry db e "emails"
          = .error (.LazyAccessViolation "Student" "emails")
        ∧ ∃ v e2,
            accessField .noImplicitFetch false schoolRegistry db e "clazz"
              = .ok (v, e2) := by
  refine ⟨rfl, ?_⟩
  intro e he
  rw [executePlan_planB_roots] at he
  obtain ⟨k, hk, hek⟩ := List.mem_map.mp he
  subst hek
  rw [scenarioB_entity]
  exact ⟨rfl, ⟨_, _, rfl⟩⟩

/-- Witness for C1: student 1 of the concrete database `wDb`. -/
theorem claim_C1_witness :
    wEntB ∈ (executePlan schoolRegistry wDb (planB wF)).roots
    ∧ (accessField .noImplicitFetch false schoolRegistry wDb wEntB "emails"
        = .error (.LazyAccessViolation "Student" "emails")
      ∧ ∃ v e2,
          accessField .noImplicitFetch false schoolRegistry wDb wEntB "clazz"
            = .ok (v, e2)) :=
  ⟨by decide, (claim_C1_lazy_access_violation wF wDb).2 wEntB (by decide)⟩

/-- C2: join-fetch on any `many`-cardinality relationship without the
caller's `allowMultiplication` flag is rejected by `classify` with
`AmbiguousCardinality` (and accepted with the flag); hence Scenario C's
`plan()` call fails with `AmbiguousCardinality` at plan-build time, and no
statement is ever dispatched to the engine. -/
theorem claim_C2_ambiguous_cardinality (spec : RelationshipSpec)
    (hmany : spec.cardinality = .many) :
    classify spec .joinFetch false = .error .AmbiguousCardinality
    ∧ classify spec .joinFetch true = .ok .JoinFetch
    ∧ ∀ f : RootFilter,
        plan schoolRegistry "Student" f
            [⟨["emails"], Strategy.joinFetch, false⟩] true
          = .error .AmbiguousCardinality
        ∧ ∀ engine, executedStatements engine
            (plan schoolRegistry "Student" f
              [⟨["emails"], Strategy.joinFetch, false⟩] true) = [] := by
  refine ⟨?_, ?_, fun f => ⟨rfl, fun engine => rfl⟩⟩ <;> simp [classify, hmany]

/-- Witness for C2 at `Student.emails` (cardinality `many`). -/
theorem claim_C2_witness :
    emailsSpec.cardinality = .many
    ∧ classify emailsSpec .joinFetch false = .error .AmbiguousCardinality
    ∧ classify emailsSpec .joinFetch true = .ok .JoinFetch
    ∧ plan schoolRegistry "Student" wF
        [⟨["emails"], Strategy.joinFetch, false⟩] true
        = .error .AmbiguousCardinality
    ∧ executedStatements wEngineFail
        (plan schoolRegistry "Student" wF
          [⟨["emails"], Strategy.joinFetch, false⟩] true) = [] :=
  ⟨rfl, (claim_C2_ambiguous_cardinality emailsSpec rfl).1,
   (claim_C2_ambiguous_cardinality emailsSpec rfl).2.1,
   ((claim_C2_ambiguous_cardinality emailsSpec rfl).2.2 wF).1,
   ((claim_C2_ambiguous_cardinality emailsSpec rfl).2.2 wF).2 wEngineFail⟩

/-- C3: the Scenario A directives assemble to exactly two statements — the
root query augmented with the `clazz` join first, then the single
batched-fetch statement for `emails` — and every student in the executed
graph has `emails` populated as the (possibly empty) sequence of its
foreign-key associations and `clazz` as a single entity or absent. -/
theorem claim_C3_two_statement_plan (f : RootFilter) :
    plan schoolRegistry "Student" f
        [⟨["emails"], Strategy.batchedFetch, false⟩,
         ⟨["clazz"], Strategy.joinFetch, false⟩] true
      = .ok (planA f)
    ∧ (planA f).statements.length = 2
    ∧ (planA f).statements.head?
        = some (Statement.root "Student" f [(["clazz"], clazzSpec)])
    ∧ ∀ (db : Database), ∀ e ∈ (executePlan schoolRegistry db (planA f)).roots,
        e.fieldState "emails"
          = .Populated (.many (assocTargets db "Student" "emails" e.key))
        ∧ e.fieldState "clazz"
          = .Populated (.one (assocTargets db "Student" "clazz" e.key).head?) := by
  refine ⟨rfl, rfl, rfl, ?_⟩
  intro db e he
  rw [executePlan_planA_roots] at he
  obtain ⟨k, hk, hek⟩ := List.mem_map.mp he
  subst hek
  rw [scenarioA_entity db _ k hk]
  exact ⟨rfl, rfl⟩

/-- Witness for C3: student 1 of `wDb`, with two emails and one class. -/
theorem claim_C3_witness :
    wEntA ∈ (executePlan schoolRegistry wDb (planA wF)).roots
    ∧ (wEntA.fieldState "emails"
        = .Populated (.many (assocTargets wDb "Student" "emails" wEntA.key))
      ∧ wEntA.fieldState "clazz"
        = .Populated (.one (assocTargets wDb "Student" "clazz" wEntA.key).head?)) :=
  ⟨by decide, (claim_C3_two_statement_plan wF).2.2.2 wDb wEntA (by decide)⟩

/-- C4: for every relationship of cardinality `one` and every filter set,
executing the plan that batched-fetches it yields a result graph
entity-by-entity equal to the one from the plan that join-fetches it: the
two loading strategies are observationally equivalent on to-one
relationships. -/
theorem claim_C4_batched_join_equivalent (reg : Registry) (rootTy r : String)
    (spec : RelationshipSpec) (f : RootFilter) (db : Database)
    (hres : resolve reg rootTy [r] = .ok [spec])
    (hone : spec.cardinality = .one) :
    ∃ qb qj,
      plan reg rootTy f [⟨[r], Strategy.batchedFetch, false⟩] true = .ok qb
      ∧ plan reg rootTy f [⟨[r], Strategy.joinFetch, false⟩] true = .ok qj
      ∧ executePlan reg db qb = executePlan reg db qj := by
  cases hlk : lookupEntity reg rootTy with
  | error e => simp [resolve, hlk] at hres
  | ok et =>
    cases hrel : et.relationships.lookup r with
    | none => simp [resolve, hlk, hrel] at hres
    | some s =>
      have hs : s = spec := by simpa [resolve, hlk, hrel] using hres
      subst hs
      have hcl : classify s .joinFetch false = .ok .JoinFetch := by
        simp [classify, hone]
      refine ⟨⟨[Statement.root rootTy f [], Statement.batch [r] s], []⟩,
              ⟨[Statement.root rootTy f [([r], s)]], []⟩, ?_, ?_, ?_⟩
      · simp [plan, hlk, resolveAll, hres, hasConflict, classifyAll, classify,
              assemble, sortByDepth, insertByDepth]
      · simp [plan, hlk, resolveAll, hres, hasConflict, classifyAll, hcl,
              assemble, sortByDepth, insertByDepth]
      · simp only [executePlan, List.foldl_cons, List.foldl_nil, List.map_map]
        congr 1
        apply listMapCongr
        intro k hk
        simp only [Function.comp_def, applyGuards_nil]
        exact congrArg (applyGuards []) (batch_join_agree db rootTy r _ s hone
          (initEntity reg rootTy k) (by rw [initEntity_key]; exact hk))

/-- Witness for C4 at `Student.clazz` (cardinality `one`) over `wDb`. -/
theorem claim_C4_witness :
    resolve schoolRegistry "Student" ["clazz"] = .ok [clazzSpec]
    ∧ clazzSpec.cardinality = .one
    ∧ ∃ qb qj,
        plan schoolRegistry "Student" wF
          [⟨["clazz"], Strategy.batchedFetch, false⟩] true = .ok qb
        ∧ plan schoolRegistry "Student" wF
            [⟨["clazz"], Strategy.joinFetch, false⟩] true = .ok qj
        ∧ executePlan schoolRegistry wDb qb = executePlan schoolRegistry wDb qj :=
  ⟨rfl, rfl,
   claim_C4_batched_join_equivalent schoolRegistry "Student" "clazz" clazzSpec
     wF wDb rfl rfl⟩

/-- C5: any directive set holding a `forbid-lazy` directive on a path
prefix together with a fetch directive (join-fetch) on a deeper path
through it makes `plan()` fail with `ConflictingDirectives` at
classification time; the conflict is never deferred, and no statement is
dispatched. -/
theorem claim_C5_conflicting_directives (reg : Registry) (rootTy : String)
    (f : RootFilter) (ds : List LoadDirective) (compositeIn : Bool)
    (et : EntityType) (rs : List (LoadDirective × List RelationshipSpec))
    (d1 d2 : LoadDirective) (q : List String)
    (hlk : lookupEntity reg rootTy = .ok et)
    (hra : resolveAll reg rootTy ds = .ok rs)
    (h1 : d1 ∈ ds) (h1s : d1.strategy = .forbidLazy)
    (h2 : d2 ∈ ds) (h2s : d2.strategy = .joinFetch)
    (hpath : d2.path = d1.path ++ q) (hq : q ≠ []) :
    plan reg rootTy f ds compositeIn = .error .ConflictingDirectives
    ∧ ∀ engine,
        executedStatements engine (plan reg rootTy f ds compositeIn) = [] := by
  have hc : hasConflict ds = true := by
    unfold hasConflict
    rw [List.any_eq_true]
    refine ⟨d1, h1, ?_⟩
    rw [Bool.and_eq_true]
    refine ⟨by rw [h1s]; rfl, ?_⟩
    rw [List.any_eq_true]
    refine ⟨d2, h2, ?_⟩
    rw [Bool.and_eq_true]
    exact ⟨by rw [h2s]; rfl, by rw [hpath]; exact pathUnder_append _ _⟩
  have hp : plan reg rootTy f ds compositeIn = .error .ConflictingDirectives := by
    simp [plan, hlk, hra, hc]
  exact ⟨hp, fun engine => by rw [hp]; rfl⟩

/-- Witness for C5: Scenario D — `forbid-lazy` on `clazz` with
`join-fetch` on `clazz.clazz` against the school registry. -/
theorem claim_C5_witness :
    lookupEntity schoolRegistry "Student" = .ok studentEntity
    ∧ resolveAll schoolRegistry "Student" scenarioDDirectives
        = .ok [(⟨["clazz"], .forbidLazy, false⟩, [clazzSpec]),
               (⟨["clazz", "clazz"], .joinFetch, false⟩, [clazzSpec, scClazzSpec])]
    ∧ (plan schoolRegistry "Student" wF scenarioDDirectives true
        = .error .ConflictingDirectives
      ∧ ∀ engine,
          executedStatements engine
            (plan schoolRegistry "Student" wF scenarioDDirectives true) = []) :=
  ⟨rfl, rfl,
   claim_C5_conflicting_directives schoolRegistry "Student" wF scenarioDDirectives
     true studentEntity
     [(⟨["clazz"], .forbidLazy, false⟩, [clazzSpec]),
      (⟨["clazz", "clazz"], .joinFetch, false⟩, [clazzSpec, scClazzSpec])]
     ⟨["clazz"], .forbidLazy, false⟩ ⟨["clazz", "clazz"], .joinFetch, false⟩
     ["clazz"] rfl rfl (by decide) rfl (by decide) rfl rfl (by decide)⟩

/-- Witness for C9: an engine failing with `StaleWrite` on a one-statement
plan — the failure is surfaced unchanged and the statement was dispatched
exactly once. -/
theorem claim_C9_witness :
    (runStatements wEngineFail [wStmt]).2 = .error (.StaleWrite, 0)
    ∧ ((runStatements wEngineFail [wStmt]).1 = [wStmt].take 1
      ∧ ∃ hk : 0 < [wStmt].length,
          wEngineFail ([wStmt].get ⟨0, hk⟩) = .error .StaleWrite) :=
  ⟨rfl, claim_C9_surface_unchanged wEngineFail [wStmt] .StaleWrite 0 rfl⟩

end EagerLoad
